import Mathlib

/-!
Shallow embedding of the HIT137 Assignment 3 repository (a tkinter GUI that
dispatches text/image inputs to mocked or thinly wrapped ML pipelines) and
proofs of the specification claims about it.

The repository contains three near-duplicate variants:
* `Software Now Assignment 3.py` (here namespace `Mock`): mock models, a
  keyword-count sentiment heuristic;
* `models.py`/`ai_model.py`/`gui.py` (here namespaces `Models`, `AIModel`,
  `AIApp`): real pipeline wrappers behind an adapter;
* the consolidated `main.py` (here namespace `MainVariant` for the parts that
  differ from the trio).

External pipelines, the filesystem and tkinter dialogs are modelled as
parameters (a pipeline is an abstract function, the filesystem an abstract
existence predicate, a dialog an `Option String` result value); Python
exceptions are modelled with `Except` over the error type `PyError`; Python
floats in the mock heuristic are modelled as rationals, since the claims are
about the defining formula `min(0.99, abs(score)/10 + 0.5)` and no float
rounding is at issue.
-/

/-- Kinds of Python exception the modelled code can raise. -/
inductive PyError where
  /-- TypeError raised when a `None` pipe handle is called like a function. -/
  | typeErrorNoneNotCallable : PyError
  /-- ValueError with a message. -/
  | valueError (msg : String) : PyError
  /-- FileNotFoundError with a message. -/
  | fileNotFoundError (msg : String) : PyError
  /-- A generic `Exception(msg)`. -/
  | exception (msg : String) : PyError
deriving DecidableEq, Repr

/-- Whether an `Except` value is the error case. -/
def isError {ε α : Type} : Except ε α → Bool
  | Except.error _ => true
  | Except.ok _ => false

/-- Accumulator loop behind `pySplit`: `cur` holds the characters of the word
in progress, in reverse. -/
def splitWsAux : List Char → List Char → List String
  | [], cur => if cur = [] then [] else [String.mk cur.reverse]
  | c :: rest, cur =>
    if c.isWhitespace then
      (if cur = [] then splitWsAux rest []
       else String.mk cur.reverse :: splitWsAux rest [])
    else splitWsAux rest (c :: cur)

/-- Python `str.split()` with no argument: split on runs of whitespace,
discarding empty pieces. -/
def pySplit (s : String) : List String :=
  splitWsAux s.data []

/-- Python `str.lower()` (the keywords and inputs at issue are ASCII). -/
def pyLower (s : String) : String :=
  String.mk (s.data.map Char.toLower)

namespace Mock

/-- The positive keyword list of `TextClassificationModel.process_input`. -/
def positive_keywords : List String :=
  ["good", "great", "awesome", "excellent", "love", "like"]

/-- The negative keyword list of `TextClassificationModel.process_input`. -/
def negative_keywords : List String :=
  ["bad", "terrible", "awful", "hate", "dislike"]

/-- One iteration of the scoring loop: `if word in positive_keywords: score += 1
elif word in negative_keywords: score -= 1`. -/
def sentimentStep (score : Int) (word : String) : Int :=
  if word ∈ positive_keywords then score + 1
  else if word ∈ negative_keywords then score - 1
  else score

/-- The keyword score accumulated over the split words, starting from 0. -/
def sentimentScore (words : List String) : Int :=
  words.foldl sentimentStep 0

/-- The dict `{"label": ..., "score": ...}` returned by the mock classifier. -/
structure SentimentResult where
  label : String
  score : ℚ
deriving DecidableEq, Repr

/-- `TextClassificationModel.process_input` from `Software Now Assignment 3.py`.
The first argument models `self._model`, which `load_model` would set; the
body never reads it, exactly as in the source, whose mock computation uses
only the input text. Nothing in the body can raise, so the surrounding
`try/except` never produces `None` and the result is always the dict. -/
def TextClassificationModel.process_input (_self_model : Option Unit)
    (text_input : String) : SentimentResult :=
  let words := pySplit (pyLower text_input)
  let score := sentimentScore words
  let label := if score > 0 then "POSITIVE"
    else if score < 0 then "NEGATIVE" else "NEUTRAL"
  let confidence : ℚ := min (99 / 100) ((score.natAbs : ℚ) / 10 + 1 / 2)
  { label := label, score := confidence }

/-- The two concrete mock model classes `ModelLoader` can construct. -/
inductive MockModelType where
  | mockTextToImage : MockModelType
  | mockTextClassification : MockModelType
deriving DecidableEq, Repr

/-- `ModelLoader.load_model_by_type`: known keys construct the matching class,
unknown keys raise `ValueError(f"Unknown model type: {model_type}")`. -/
def ModelLoader.load_model_by_type (model_type : String) :
    Except PyError MockModelType :=
  if model_type = "text-to-image" then Except.ok MockModelType.mockTextToImage
  else if model_type = "text-classification" then
    Except.ok MockModelType.mockTextClassification
  else Except.error (PyError.valueError ("Unknown model type: " ++ model_type))

end Mock

namespace Models

/-- `SentimentModel.predict` from `models.py`. `pipe` models `self.pipe`: an
abstract pipeline returning the top label for a text (`self.pipe(text)[0]
["label"]` collapsed to one function), or `none` when `load` has not set it.
The `isinstance(text, str)` guard always passes here because the input is
typed as a string. Calling a `None` pipe raises `TypeError`. -/
def SentimentModel.predict (pipe : Option (String → String)) (text : String) :
    Except PyError String :=
  match pipe with
  | none => Except.error PyError.typeErrorNoneNotCallable
  | some p => Except.ok (p text)

/-- Result of `ImageModel.predict` together with whether the wrapped pipeline
was actually invoked. -/
structure PredictTrace where
  result : Except PyError String
  pipeCalled : Bool
deriving Repr

/-- `ImageModel.predict` from `models.py`. `fsExists` models
`os.path.exists`; `pipe` models `self.pipe` as for the sentiment model. The
existence check runs first: a missing path raises `FileNotFoundError` and the
pipeline is never invoked. -/
def ImageModel.predict (fsExists : String → Bool)
    (pipe : Option (String → String)) (image_path : String) : PredictTrace :=
  if fsExists image_path = false then
    { result := Except.error
        (PyError.fileNotFoundError ("Image file not found: " ++ image_path)),
      pipeCalled := false }
  else
    match pipe with
    | none => { result := Except.error PyError.typeErrorNoneNotCallable,
                pipeCalled := false }
    | some p => { result := Except.ok (p image_path), pipeCalled := true }

/-- `TextToImageModel.predict` from `models.py`. The diffusion pipeline is
abstract; on success the method saves the image and returns the fixed status
string. Calling a `None` pipe raises `TypeError`. -/
def TextToImageModel.predict (pipe : Option (String → Unit))
    (_text : String) : Except PyError String :=
  match pipe with
  | none => Except.error PyError.typeErrorNoneNotCallable
  | some _ => Except.ok "Image generated and saved as generated_image.png"

end Models

namespace MainVariant

/-- `TextToImageModel.predict` from the consolidated `main.py`: it explicitly
checks `if self.pipe:` and raises `Exception("Text-to-image model not
loaded")`, which the surrounding `try/except` rewraps as
`Exception(f"Text-to-image prediction failed: ...")`. -/
def TextToImageModel.predict (pipe : Option (String → Unit))
    (_text : String) : Except PyError String :=
  match pipe with
  | some _ => Except.ok "Image generated and saved as generated_image.png"
  | none => Except.error (PyError.exception
      "Text-to-image prediction failed: Text-to-image model not loaded")

end MainVariant

/-- Python `dict.get(key, default)` over an association-list model of a dict
literal. -/
def dictGet (d : List (String × String)) (key default : String) : String :=
  match d.find? (fun p => p.1 = key) with
  | some p => p.2
  | none => default

namespace ModelInfo

/-- The `_info` dict literal of `ModelInfo.__init__` in `model_info.py`. -/
def info : List (String × String) :=
  [("sentiment", "DistilBERT for sentiment analysis."),
   ("image", "CLIP for image classification."),
   ("text_to_image", "Stable Diffusion v1-5 for text-to-image.")]

/-- `ModelInfo.get_info` from `model_info.py`:
`self._info.get(model_type, "No info available")`. -/
def get_info (model_type : String) : String :=
  dictGet info model_type "No info available"

/-- The `_info` dict literal of `ModelInfo.__init__` in `main.py` (same keys,
longer description strings). -/
def mainInfo : List (String × String) :=
  [("sentiment",
    "DistilBERT for sentiment analysis: Classifies text as positive/negative."),
   ("image", "CLIP for image classification: Describes or classifies images."),
   ("text_to_image", "Stable Diffusion v1-5: Generates images from text.")]

/-- `ModelInfo.get_info` from `main.py`. -/
def main_get_info (model_type : String) : String :=
  dictGet mainInfo model_type "No info available"

end ModelInfo

namespace AIModel

/-- The three concrete model classes of `models.py` that
`AIModel._create_model` can instantiate. -/
inductive ConcreteModelType where
  | sentimentModel : ConcreteModelType
  | imageModel : ConcreteModelType
  | textToImageModel : ConcreteModelType
deriving DecidableEq, Repr

/-- `AIModel._create_model` from `ai_model.py`: known keys construct the
matching class; any other key falls through to `return None`. -/
def _create_model (typ : String) : Option ConcreteModelType :=
  if typ = "sentiment" then some ConcreteModelType.sentimentModel
  else if typ = "image" then some ConcreteModelType.imageModel
  else if typ = "text_to_image" then some ConcreteModelType.textToImageModel
  else none

/-- `AIModel.predict` from `ai_model.py`: with a model instance it forwards to
that instance (`delegate` abstracts the concrete dispatch, whose result may
raise); with `None` it returns the string `"No model selected"`. -/
def predict (model_instance : Option ConcreteModelType)
    (delegate : ConcreteModelType → String → Except PyError String)
    (input_data : String) : Except PyError String :=
  match model_instance with
  | some m => delegate m input_data
  | none => Except.ok "No model selected"

end AIModel

namespace AIApp

/-- The mutable fields of the `AIApp` shell in `gui.py` that the claims are
about: `self.input_data`, the model-type key held by `self.current_model`
(`none` models `current_model is None`), the `model_var`/`input_type` widget
values, and the contents of the output text widget. -/
structure AppState where
  input_data : Option String
  current_model : Option String
  model_var : String
  input_type : String
  output : String
deriving DecidableEq, Repr

/-- Python truthiness of `self.input_data` (a `None`-or-string field):
`not self.input_data` is taken both when it is `None` and when it is `""`. -/
def pyTruthy : Option String → Bool
  | none => false
  | some s => s ≠ ""

/-- The modality-mismatch condition inlined in the run-button handler:
`(model_var == "image" and input_type != "Image") or (model_var in
["sentiment", "text_to_image"] and input_type != "Text")`. -/
def inputTypeMismatch (model_var input_type : String) : Bool :=
  (model_var == "image" && input_type != "Image") ||
    ((model_var == "sentiment" || model_var == "text_to_image") &&
      input_type != "Text")

/-- Result of one run-button click: the state afterwards, the modal error
dialog shown (if any), and whether `load`/`predict` on the current model were
reached at all. -/
structure RunResult where
  state : AppState
  dialog : Option String
  invoked : Bool
deriving DecidableEq, Repr

/-- `AIApp._decorated_run_model` from `gui.py` (the decorator only prints).
The outcomes of `self.current_model.load()` and
`self.current_model.predict(self.input_data)` are abstract parameters, since
they call external pipelines; an `Except.error e` models an escaping Python
exception with `str(e) = e`, caught by the handler's broad `except`, which
shows `f"Failed to run model: {str(e)}"`. On success the output widget is
cleared and `str(result)` inserted. -/
def run_model (st : AppState) (loadRes : Except String Unit)
    (predictRes : Except String String) : RunResult :=
  if pyTruthy st.input_data = false then
    { state := st, dialog := some "Please load an input file!", invoked := false }
  else if st.current_model.isNone then
    { state := st, dialog := some "Please select a model!", invoked := false }
  else if inputTypeMismatch st.model_var st.input_type then
    { state := st, dialog := some "Input type does not match model requirements!",
      invoked := false }
  else
    match loadRes with
    | Except.error e =>
      { state := st, dialog := some ("Failed to run model: " ++ e),
        invoked := true }
    | Except.ok _ =>
      match predictRes with
      | Except.error e =>
        { state := st, dialog := some ("Failed to run model: " ++ e),
          invoked := true }
      | Except.ok r =>
        { state := { st with output := r }, dialog := none, invoked := true }

/-- `AIApp.on_type_change` from `gui.py`: `self.input_data = None` and
`self.output_text.delete(1.0, tk.END)`. -/
def on_type_change (st : AppState) : AppState :=
  { st with input_data := none, output := "" }

/-- `AIApp.load_file` from `gui.py`. `chosenFile` models the result of the
file dialog (`none` when cancelled), `readFile` the contents of a text file
at a path. For `Text` the file contents become `input_data`; for `Image` the
path itself does; otherwise an error dialog is shown. -/
def load_file (st : AppState) (chosenFile : Option String)
    (readFile : String → String) : AppState × Option String :=
  if st.input_type = "Text" then
    match chosenFile with
    | some f => ({ st with input_data := some (readFile f) }, none)
    | none => (st, none)
  else if st.input_type = "Image" then
    match chosenFile with
    | some f => ({ st with input_data := some f }, none)
    | none => (st, none)
  else (st, some "Please select an input type!")

end AIApp

/-! ## Helper lemmas about the mock sentiment score -/

namespace Mock

/-- No negative keyword is also a positive keyword. -/
lemma neg_not_pos : ∀ w ∈ negative_keywords, w ∉ positive_keywords := by
  decide

/-- Scoring words that are all positive keywords adds one per word. -/
lemma foldl_sentimentStep_all_pos (l : List String) :
    ∀ acc : Int, (∀ w ∈ l, w ∈ positive_keywords) →
      l.foldl sentimentStep acc = acc + l.length := by
  induction l with
  | nil => intro acc _; simp
  | cons x xs ih =>
    intro acc h
    have hx : x ∈ positive_keywords := h x (List.mem_cons_self x xs)
    have hrest : ∀ w ∈ xs, w ∈ positive_keywords :=
      fun w hw => h w (List.mem_cons_of_mem x hw)
    simp only [List.foldl_cons, sentimentStep, if_pos hx]
    rw [ih (acc + 1) hrest, List.length_cons]
    push_cast
    ring

/-- Scoring words that are all negative keywords subtracts one per word. -/
lemma foldl_sentimentStep_all_neg (l : List String) :
    ∀ acc : Int, (∀ w ∈ l, w ∈ negative_keywords) →
      l.foldl sentimentStep acc = acc - l.length := by
  induction l with
  | nil => intro acc _; simp
  | cons x xs ih =>
    intro acc h
    have hx : x ∈ negative_keywords := h x (List.mem_cons_self x xs)
    have hrest : ∀ w ∈ xs, w ∈ negative_keywords :=
      fun w hw => h w (List.mem_cons_of_mem x hw)
    simp only [List.foldl_cons, sentimentStep, if_neg (neg_not_pos x hx),
      if_pos hx]
    rw [ih (acc - 1) hrest, List.length_cons]
    push_cast
    ring

/-- Scoring words that match no keyword leaves the accumulator unchanged. -/
lemma foldl_sentimentStep_no_keyword (l : List String) :
    ∀ acc : Int, (∀ w ∈ l, w ∉ positive_keywords ∧ w ∉ negative_keywords) →
      l.foldl sentimentStep acc = acc := by
  induction l with
  | nil => intro acc _; simp
  | cons x xs ih =>
    intro acc h
    have hx := h x (List.mem_cons_self x xs)
    have hrest : ∀ w ∈ xs, w ∉ positive_keywords ∧ w ∉ negative_keywords :=
      fun w hw => h w (List.mem_cons_of_mem x hw)
    simp only [List.foldl_cons, sentimentStep, if_neg hx.1, if_neg hx.2]
    exact ih acc hrest

/-- The score of an all-positive word list is its length. -/
lemma sentimentScore_all_pos (l : List String)
    (h : ∀ w ∈ l, w ∈ positive_keywords) :
    sentimentScore l = l.length := by
  have := foldl_sentimentStep_all_pos l 0 h
  simpa [sentimentScore] using this

/-- The score of an all-negative word list is minus its length. -/
lemma sentimentScore_all_neg (l : List String)
    (h : ∀ w ∈ l, w ∈ negative_keywords) :
    sentimentScore l = -(l.length : Int) := by
  have := foldl_sentimentStep_all_neg l 0 h
  simpa [sentimentScore] using this

/-- The score of a keyword-free word list is zero. -/
lemma sentimentScore_no_keyword (l : List String)
    (h : ∀ w ∈ l, w ∉ positive_keywords ∧ w ∉ negative_keywords) :
    sentimentScore l = 0 :=
  foldl_sentimentStep_no_keyword l 0 h

end Mock

/-- C1: the mock sentiment classifier on an input all of whose (lowercased,
whitespace-split) words are positive keywords returns label POSITIVE with
confidence `min(0.99, n/10 + 0.5)` for `n` the word count; symmetrically for
all-negative input it returns NEGATIVE with the same formula on the absolute
score; and input with no keyword at all (in particular empty input) returns
NEUTRAL with confidence 0.5. -/
theorem mock_sentiment_keyword_heuristic (m : Option Unit) (s : String) :
    (pySplit (pyLower s) ≠ [] →
      (∀ w ∈ pySplit (pyLower s), w ∈ Mock.positive_keywords) →
      Mock.TextClassificationModel.process_input m s =
        { label := "POSITIVE",
          score := min (99 / 100)
            (((pySplit (pyLower s)).length : ℚ) / 10 + 1 / 2) }) ∧
    (pySplit (pyLower s) ≠ [] →
      (∀ w ∈ pySplit (pyLower s), w ∈ Mock.negative_keywords) →
      Mock.TextClassificationModel.process_input m s =
        { label := "NEGATIVE",
          score := min (99 / 100)
            (((pySplit (pyLower s)).length : ℚ) / 10 + 1 / 2) }) ∧
    ((∀ w ∈ pySplit (pyLower s),
        w ∉ Mock.positive_keywords ∧ w ∉ Mock.negative_keywords) →
      Mock.TextClassificationModel.process_input m s =
        { label := "NEUTRAL", score := 1 / 2 }) := by
  refine ⟨?_, ?_, ?_⟩
  · intro hne hall
    have hsc := Mock.sentimentScore_all_pos _ hall
    have hlen : 0 < (pySplit (pyLower s)).length := List.length_pos.mpr hne
    have hpos : (0 : Int) < ((pySplit (pyLower s)).length : Int) := by
      exact_mod_cast hlen
    simp only [Mock.TextClassificationModel.process_input, hsc, gt_iff_lt,
      if_pos hpos, Int.natAbs_ofNat]
  · intro hne hall
    have hsc := Mock.sentimentScore_all_neg _ hall
    have hlen : 0 < (pySplit (pyLower s)).length := List.length_pos.mpr hne
    have hlen' : (0 : Int) < ((pySplit (pyLower s)).length : Int) := by
      exact_mod_cast hlen
    have hlt : -((pySplit (pyLower s)).length : Int) < 0 := by omega
    have hnotpos : ¬ (0 : Int) < -((pySplit (pyLower s)).length : Int) := by
      omega
    simp only [Mock.TextClassificationModel.process_input, hsc, gt_iff_lt,
      if_neg hnotpos, if_pos hlt, Int.natAbs_neg, Int.natAbs_ofNat]
  · intro hall
    have hsc := Mock.sentimentScore_no_keyword _ hall
    simp only [Mock.TextClassificationModel.process_input, hsc, gt_iff_lt,
      lt_irrefl, if_false, Int.natAbs_zero, Mock.SentimentResult.mk.injEq]
    norm_num

/-- Witness for C1 at the concrete input `"good Great"`: two words, both
positive keywords, giving POSITIVE with confidence `min(0.99, 2/10 + 0.5)`. -/
theorem mock_sentiment_keyword_heuristic_witness :
    pySplit (pyLower "good Great") ≠ [] ∧
    (∀ w ∈ pySplit (pyLower "good Great"), w ∈ Mock.positive_keywords) ∧
    Mock.TextClassificationModel.process_input none "good Great" =
      { label := "POSITIVE",
        score := min (99 / 100)
          (((pySplit (pyLower "good Great")).length : ℚ) / 10 + 1 / 2) } :=
  ⟨by decide, by decide,
    (mock_sentiment_keyword_heuristic none "good Great").1 (by decide)
      (by decide)⟩

/-- C7: the confidence score synthesized by the mock sentiment heuristic
always lies in the closed interval from 0.5 to 0.99. -/
theorem mock_sentiment_confidence_bounds (m : Option Unit) (s : String) :
    1 / 2 ≤ (Mock.TextClassificationModel.process_input m s).score ∧
    (Mock.TextClassificationModel.process_input m s).score ≤ 99 / 100 := by
  simp only [Mock.TextClassificationModel.process_input]
  constructor
  · apply le_min
    · norm_num
    · have h : (0 : ℚ) ≤
          (((Mock.sentimentScore (pySplit (pyLower s))).natAbs : ℕ) : ℚ) := by
        positivity
      linarith
  · exact min_le_left _ _

/-- C2 counterexample: in the mock variant, `process_input` on an UNLOADED
`TextClassificationModel` (first argument `none`, i.e. `self._model is None`,
as it is before `load_model`) returns a perfectly normal classification dict,
not an error: the mock body never consults the loaded model, so no error path
is triggered. -/
theorem predict_before_load_counterexample :
    Mock.TextClassificationModel.process_input none "hello" =
      { label := "NEUTRAL", score := 1 / 2 } := by
  have hsc : Mock.sentimentScore (pySplit (pyLower "hello")) = 0 := by decide
  simp only [Mock.TextClassificationModel.process_input, hsc, gt_iff_lt,
    lt_irrefl, if_false, Int.natAbs_zero, Mock.SentimentResult.mk.injEq]
  norm_num

/-- C2 (amended): in the real-pipeline variants (`models.py` and `main.py`),
calling `predict` before `load` hits an error path — the `None` pipe handle
makes the wrapped pipeline call raise `TypeError`, or, for `main.py`'s
text-to-image model, an explicit not-loaded exception is raised — whereas in
the mock variant `process_input` never reads the loaded model and succeeds
normally (its result does not depend on the `self._model` field at all). -/
theorem predict_before_load (text path : String) (fsExists : String → Bool)
    (m : Option Unit) :
    isError (Models.SentimentModel.predict none text) = true ∧
    isError (Models.ImageModel.predict fsExists none path).result = true ∧
    isError (Models.TextToImageModel.predict none text) = true ∧
    isError (MainVariant.TextToImageModel.predict none text) = true ∧
    Mock.TextClassificationModel.process_input m text =
      Mock.TextClassificationModel.process_input none text := by
  refine ⟨rfl, ?_, rfl, rfl, rfl⟩
  unfold Models.ImageModel.predict
  by_cases h : fsExists path = false
  · rw [if_pos h]; rfl
  · rw [if_neg h]; rfl

/-- C4: each known key constructs the matching concrete model class
(`sentiment`/`image`/`text_to_image` in `ai_model.py`, `text-to-image`/
`text-classification` in the mock `ModelLoader`); an unknown key yields `None`
in the adapter variant — whose `predict` then answers `"No model selected"` —
and raises `ValueError` in the mock factory variant. -/
theorem factory_dispatch :
    AIModel._create_model "sentiment" =
      some AIModel.ConcreteModelType.sentimentModel ∧
    AIModel._create_model "image" = some AIModel.ConcreteModelType.imageModel ∧
    AIModel._create_model "text_to_image" =
      some AIModel.ConcreteModelType.textToImageModel ∧
    (∀ k : String, k ≠ "sentiment" → k ≠ "image" → k ≠ "text_to_image" →
      AIModel._create_model k = none) ∧
    (∀ (delegate : AIModel.ConcreteModelType → String → Except PyError String)
        (input : String),
      AIModel.predict none delegate input = Except.ok "No model selected") ∧
    Mock.ModelLoader.load_model_by_type "text-to-image" =
      Except.ok Mock.MockModelType.mockTextToImage ∧
    Mock.ModelLoader.load_model_by_type "text-classification" =
      Except.ok Mock.MockModelType.mockTextClassification ∧
    (∀ k : String, k ≠ "text-to-image" → k ≠ "text-classification" →
      Mock.ModelLoader.load_model_by_type k =
        Except.error (PyError.valueError ("Unknown model type: " ++ k))) := by
  refine ⟨by decide, by decide, by decide, ?_, fun _ _ => rfl, by rfl,
    by rfl, ?_⟩
  · intro k h1 h2 h3
    unfold AIModel._create_model
    rw [if_neg h1, if_neg h2, if_neg h3]
  · intro k h1 h2
    unfold Mock.ModelLoader.load_model_by_type
    rw [if_neg h1, if_neg h2]

/-- Witness for C4 at the concrete unknown key "bogus". -/
theorem factory_dispatch_witness :
    AIModel._create_model "bogus" = none ∧
    Mock.ModelLoader.load_model_by_type "bogus" =
      Except.error (PyError.valueError ("Unknown model type: " ++ "bogus")) :=
  ⟨factory_dispatch.2.2.2.1 "bogus" (by decide) (by decide) (by decide),
   factory_dispatch.2.2.2.2.2.2.2 "bogus" (by decide) (by decide)⟩

/-- C5: `ImageModel.predict` on a path that does not exist raises
`FileNotFoundError` without ever invoking the wrapped pipeline, and the
pipeline is invoked only on paths that exist. -/
theorem image_predict_missing_path (fsExists : String → Bool)
    (pipe : Option (String → String)) (path : String) :
    (fsExists path = false →
      (Models.ImageModel.predict fsExists pipe path).result =
        Except.error
          (PyError.fileNotFoundError ("Image file not found: " ++ path)) ∧
      (Models.ImageModel.predict fsExists pipe path).pipeCalled = false) ∧
    ((Models.ImageModel.predict fsExists pipe path).pipeCalled = true →
      fsExists path = true) := by
  constructor
  · intro h
    unfold Models.ImageModel.predict
    rw [if_pos h]
    exact ⟨rfl, rfl⟩
  · intro h
    cases hfs : fsExists path with
    | false =>
      exfalso
      unfold Models.ImageModel.predict at h
      rw [if_pos hfs] at h
      simp at h
    | true => rfl

/-- Witness for C5: a filesystem on which no path exists, the concrete path
"missing.png", and an unloaded pipe. -/
theorem image_predict_missing_path_witness :
    (fun _ : String => false) "missing.png" = false ∧
    (Models.ImageModel.predict (fun _ => false) none "missing.png").result =
      Except.error
        (PyError.fileNotFoundError ("Image file not found: " ++ "missing.png")) ∧
    (Models.ImageModel.predict (fun _ => false) none "missing.png").pipeCalled
      = false :=
  ⟨rfl,
   ((image_predict_missing_path (fun _ => false) none "missing.png").1 rfl).1,
   ((image_predict_missing_path (fun _ => false) none "missing.png").1 rfl).2⟩

/-- C9: `get_info` returns the stored description for each of the three known
keys and "No info available" for every other key, in both the
`model_info.py` and the `main.py` variants. (Purity — repeated calls with the
same key return the same string — is inherent in the embedding: `get_info` is
a function of the key over a fixed association list.) -/
theorem model_info_get_info :
    ModelInfo.get_info "sentiment" = "DistilBERT for sentiment analysis." ∧
    ModelInfo.get_info "image" = "CLIP for image classification." ∧
    ModelInfo.get_info "text_to_image" =
      "Stable Diffusion v1-5 for text-to-image." ∧
    (∀ k : String, k ≠ "sentiment" → k ≠ "image" → k ≠ "text_to_image" →
      ModelInfo.get_info k = "No info available") ∧
    ModelInfo.main_get_info "sentiment" =
      "DistilBERT for sentiment analysis: Classifies text as positive/negative." ∧
    ModelInfo.main_get_info "image" =
      "CLIP for image classification: Describes or classifies images." ∧
    ModelInfo.main_get_info "text_to_image" =
      "Stable Diffusion v1-5: Generates images from text." ∧
    (∀ k : String, k ≠ "sentiment" → k ≠ "image" → k ≠ "text_to_image" →
      ModelInfo.main_get_info k = "No info available") := by
  refine ⟨by decide, by decide, by decide, ?_, by decide, by decide, by decide,
    ?_⟩
  · intro k h1 h2 h3
    simp [ModelInfo.get_info, dictGet, ModelInfo.info, Ne.symm h1, Ne.symm h2,
      Ne.symm h3]
  · intro k h1 h2 h3
    simp [ModelInfo.main_get_info, dictGet, ModelInfo.mainInfo, Ne.symm h1,
      Ne.symm h2, Ne.symm h3]

/-- Witness for C9 at the concrete unknown key "diffusion". -/
theorem model_info_get_info_witness :
    ModelInfo.get_info "diffusion" = "No info available" ∧
    ModelInfo.main_get_info "diffusion" = "No info available" :=
  ⟨model_info_get_info.2.2.2.1 "diffusion" (by decide) (by decide) (by decide),
   model_info_get_info.2.2.2.2.2.2.2 "diffusion" (by decide) (by decide)
     (by decide)⟩

/-- C3: when the three validations pass but `load` or `predict` raises, the
run-button handler catches the exception, shows the modal dialog
`"Failed to run model: ..."`, and leaves the whole application state —
output text, `input_data` and `current_model` included — exactly as it was. -/
theorem run_model_error_leaves_state (st : AIApp.AppState)
    (loadRes : Except String Unit) (predictRes : Except String String)
    (h1 : AIApp.pyTruthy st.input_data = true)
    (h2 : st.current_model.isNone = false)
    (h3 : AIApp.inputTypeMismatch st.model_var st.input_type = false)
    (herr : (∃ e, loadRes = Except.error e) ∨
      (loadRes = Except.ok () ∧ ∃ e, predictRes = Except.error e)) :
    (AIApp.run_model st loadRes predictRes).state = st ∧
    ∃ e, (AIApp.run_model st loadRes predictRes).dialog =
      some ("Failed to run model: " ++ e) := by
  unfold AIApp.run_model
  rw [if_neg (by simp [h1]), if_neg (by simp [h2]), if_neg (by simp [h3])]
  rcases herr with ⟨e, he⟩ | ⟨hok, e, he⟩
  · rw [he]
    exact ⟨rfl, e, rfl⟩
  · rw [hok, he]
    exact ⟨rfl, e, rfl⟩

/-- Witness for C3: a fully valid state in which `load` raises "boom"; the
state is untouched and the dialog carries the stringified exception. -/
theorem run_model_error_leaves_state_witness :
    (AIApp.run_model
        { input_data := some "hi", current_model := some "sentiment",
          model_var := "sentiment", input_type := "Text", output := "old" }
        (Except.error "boom") (Except.ok "r")).state =
      { input_data := some "hi", current_model := some "sentiment",
        model_var := "sentiment", input_type := "Text", output := "old" } ∧
    ∃ e, (AIApp.run_model
        { input_data := some "hi", current_model := some "sentiment",
          model_var := "sentiment", input_type := "Text", output := "old" }
        (Except.error "boom") (Except.ok "r")).dialog =
      some ("Failed to run model: " ++ e) :=
  run_model_error_leaves_state
    { input_data := some "hi", current_model := some "sentiment",
      model_var := "sentiment", input_type := "Text", output := "old" }
    (Except.error "boom") (Except.ok "r") (by decide) (by decide) (by decide)
    (Or.inl ⟨"boom", rfl⟩)

/-- C6: the run-button handler reaches `load`/`predict` exactly when input
data is present (truthy), a model is selected, and the selected model's
modality matches the input type; whenever one of the three validations fails,
an error dialog is shown and the handler returns with the state unchanged and
`load`/`predict` never called. -/
theorem run_model_validation_gate (st : AIApp.AppState)
    (loadRes : Except String Unit) (predictRes : Except String String) :
    ((AIApp.run_model st loadRes predictRes).invoked = true ↔
      (AIApp.pyTruthy st.input_data = true ∧ st.current_model.isNone = false ∧
        AIApp.inputTypeMismatch st.model_var st.input_type = false)) ∧
    (¬ (AIApp.pyTruthy st.input_data = true ∧ st.current_model.isNone = false ∧
        AIApp.inputTypeMismatch st.model_var st.input_type = false) →
      (AIApp.run_model st loadRes predictRes).invoked = false ∧
      (AIApp.run_model st loadRes predictRes).state = st ∧
      (AIApp.run_model st loadRes predictRes).dialog ≠ none) := by
  cases hb1 : AIApp.pyTruthy st.input_data with
  | false =>
    constructor
    · simp [AIApp.run_model, hb1]
    · intro _
      refine ⟨?_, ?_, ?_⟩ <;> simp [AIApp.run_model, hb1]
  | true =>
    cases hb2 : st.current_model.isNone with
    | true =>
      constructor
      · simp [AIApp.run_model, hb1, hb2]
      · intro _
        refine ⟨?_, ?_, ?_⟩ <;> simp [AIApp.run_model, hb1, hb2]
    | false =>
      cases hb3 : AIApp.inputTypeMismatch st.model_var st.input_type with
      | true =>
        constructor
        · simp [AIApp.run_model, hb1, hb2, hb3]
        · intro _
          refine ⟨?_, ?_, ?_⟩ <;> simp [AIApp.run_model, hb1, hb2, hb3]
      | false =>
        constructor
        · constructor
          · intro _
            exact ⟨rfl, rfl, rfl⟩
          · intro _
            cases loadRes with
            | error e => simp [AIApp.run_model, hb1, hb2, hb3]
            | ok u =>
              cases predictRes with
              | error e => simp [AIApp.run_model, hb1, hb2, hb3]
              | ok r => simp [AIApp.run_model, hb1, hb2, hb3]
        · intro hc
          exact absurd ⟨rfl, rfl, rfl⟩ hc

/-- Witness for C6: with no input loaded (`input_data = None`) the handler
shows a dialog, keeps the state, and never reaches `load`/`predict`. -/
theorem run_model_validation_gate_witness :
    (AIApp.run_model
        { input_data := none, current_model := some "sentiment",
          model_var := "sentiment", input_type := "Text", output := "" }
        (Except.ok ()) (Except.ok "r")).invoked = false ∧
    (AIApp.run_model
        { input_data := none, current_model := some "sentiment",
          model_var := "sentiment", input_type := "Text", output := "" }
        (Except.ok ()) (Except.ok "r")).state =
      { input_data := none, current_model := some "sentiment",
        model_var := "sentiment", input_type := "Text", output := "" } ∧
    (AIApp.run_model
        { input_data := none, current_model := some "sentiment",
          model_var := "sentiment", input_type := "Text", output := "" }
        (Except.ok ()) (Except.ok "r")).dialog ≠ none :=
  (run_model_validation_gate
      { input_data := none, current_model := some "sentiment",
        model_var := "sentiment", input_type := "Text", output := "" }
      (Except.ok ()) (Except.ok "r")).2 (by decide)

/-- C8: switching the input type always resets `input_data` to `None` and
clears the output widget, whatever the previous state was; in particular the
result of `on_type_change` does not depend on the previously loaded input or
previously displayed output. -/
theorem type_change_clears_state (st : AIApp.AppState) :
    (AIApp.on_type_change st).input_data = none ∧
    (AIApp.on_type_change st).output = "" ∧
    (∀ (d : Option String) (o : String),
      AIApp.on_type_change { st with input_data := d, output := o } =
        AIApp.on_type_change st) :=
  ⟨rfl, rfl, fun _ _ => rfl⟩

/-- C10: loading a text file with empty contents stores `input_data = ""`,
and the run-button handler then behaves exactly as with no input at all —
the truthiness check `not self.input_data` fires, the "Please load an input
file!" dialog is shown, and `load`/`predict` are never called. -/
theorem empty_text_file_treated_as_no_input (st : AIApp.AppState) (f : String)
    (readFile : String → String) (loadRes : Except String Unit)
    (predictRes : Except String String)
    (htype : st.input_type = "Text") (hread : readFile f = "") :
    (AIApp.load_file st (some f) readFile).1.input_data = some "" ∧
    (AIApp.run_model (AIApp.load_file st (some f) readFile).1 loadRes
      predictRes).dialog = some "Please load an input file!" ∧
    (AIApp.run_model (AIApp.load_file st (some f) readFile).1 loadRes
      predictRes).invoked = false ∧
    (AIApp.run_model (AIApp.load_file st (some f) readFile).1 loadRes
      predictRes).state = (AIApp.load_file st (some f) readFile).1 := by
  have hlf : (AIApp.load_file st (some f) readFile).1 =
      { st with input_data := some "" } := by
    unfold AIApp.load_file
    rw [if_pos htype]
    simp [hread]
  rw [hlf]
  refine ⟨rfl, ?_, ?_, ?_⟩ <;> simp [AIApp.run_model, AIApp.pyTruthy]

/-- Witness for C10: a concrete `Text`-mode state, a file named "empty.txt"
whose contents are empty. -/
theorem empty_text_file_treated_as_no_input_witness :
    (AIApp.load_file
        { input_data := none, current_model := some "sentiment",
          model_var := "sentiment", input_type := "Text", output := "x" }
        (some "empty.txt") (fun _ => "")).1.input_data = some "" ∧
    (AIApp.run_model
        (AIApp.load_file
          { input_data := none, current_model := some "sentiment",
            model_var := "sentiment", input_type := "Text", output := "x" }
          (some "empty.txt") (fun _ => "")).1
        (Except.ok ()) (Except.ok "r")).dialog =
      some "Please load an input file!" ∧
    (AIApp.run_model
        (AIApp.load_file
          { input_data := none, current_model := some "sentiment",
            model_var := "sentiment", input_type := "Text", output := "x" }
          (some "empty.txt") (fun _ => "")).1
        (Except.ok ()) (Except.ok "r")).invoked = false ∧
    (AIApp.run_model
        (AIApp.load_file
          { input_data := none, current_model := some "sentiment",
            model_var := "sentiment", input_type := "Text", output := "x" }
          (some "empty.txt") (fun _ => "")).1
        (Except.ok ()) (Except.ok "r")).state =
      (AIApp.load_file
        { input_data := none, current_model := some "sentiment",
          model_var := "sentiment", input_type := "Text", output := "x" }
        (some "empty.txt") (fun _ => "")).1 :=
  empty_text_file_treated_as_no_input
    { input_data := none, current_model := some "sentiment",
      model_var := "sentiment", input_type := "Text", output := "x" }
    "empty.txt" (fun _ => "") (Except.ok ()) (Except.ok "r") rfl rfl
